import Mathlib

/-!
# Verification of the particle physics engine (`src/utils/physicsEngine.js`)

Shallow embedding of the engine's data model and operations over exact
rational arithmetic (`ℚ`).  JavaScript numbers are modelled as rationals;
`Math.sqrt` is modelled by `sqrtQ`, which is exact on every rational whose
square root is rational (all concrete inputs used below keep radicands in
that class) and returns `0` elsewhere.  The universal theorems below do not
depend on the value of `sqrtQ` outside that class.  `Infinity` (the default
particle lifespan) is modelled by `Option ℚ` with `none` for `Infinity`.
JavaScript object identity inside the engine's particle array is modelled by
the list index; the engine owns its particles, so distinct array slots are
distinct objects.
-/

/-- Model of `Math.sqrt`: the exact square root when the argument is a
nonnegative rational with a rational square root, `0` otherwise. -/
def sqrtQ (q : ℚ) : ℚ :=
  let n := Nat.sqrt q.num.toNat
  let d := Nat.sqrt q.den
  if 0 ≤ q ∧ n * n = q.num.toNat ∧ d * d = q.den then (n : ℚ) / (d : ℚ) else 0

/-- `Vector2D` (source lines 9–116): a pair of coordinates. -/
structure Vec2 where
  x : ℚ
  y : ℚ
deriving DecidableEq, Repr

namespace Vec2

/-- `Vector2D.add`. -/
def add (v w : Vec2) : Vec2 := ⟨v.x + w.x, v.y + w.y⟩

/-- `Vector2D.subtract`. -/
def sub (v w : Vec2) : Vec2 := ⟨v.x - w.x, v.y - w.y⟩

/-- `Vector2D.multiply` (by a scalar). -/
def multiply (v : Vec2) (s : ℚ) : Vec2 := ⟨v.x * s, v.y * s⟩

/-- `Vector2D.divide` (by a scalar). -/
def divide (v : Vec2) (s : ℚ) : Vec2 := ⟨v.x / s, v.y / s⟩

/-- `Vector2D.magnitude`: `Math.sqrt(x*x + y*y)`. -/
def magnitude (v : Vec2) : ℚ := sqrtQ (v.x * v.x + v.y * v.y)

/-- `Vector2D.normalize`: divide by the magnitude when it is positive,
otherwise the zero vector. -/
def normalize (v : Vec2) : Vec2 :=
  if 0 < v.magnitude then v.divide v.magnitude else ⟨0, 0⟩

/-- `Vector2D.distanceTo`. -/
def distanceTo (v w : Vec2) : ℚ := (v.sub w).magnitude

/-- `Vector2D.dot`. -/
def dot (v w : Vec2) : ℚ := v.x * w.x + v.y * w.y

/-- `Vector2D.cross` (2D, scalar result). -/
def cross (v w : Vec2) : ℚ := v.x * w.y - v.y * w.x

end Vec2

/-- `PhysicsParticle` (source lines 121–315): full particle state. -/
structure Particle where
  position : Vec2
  velocity : Vec2
  acceleration : Vec2
  force : Vec2
  mass : ℚ
  radius : ℚ
  restitution : ℚ
  friction : ℚ
  damping : ℚ
  color : String
  alpha : ℚ
  /-- `none` models the default `Infinity` lifespan. -/
  lifespan : Option ℚ
  age : ℚ
  fixed : Bool
  active : Bool
  trail : List Vec2
  maxTrailLength : ℕ
deriving DecidableEq, Repr

namespace Particle

/-- The `PhysicsParticle` constructor (source lines 122–145).
`radius = Math.sqrt(mass) * 2`; defaults: restitution 0.8, friction 0.98,
damping 0.99, lifespan `Infinity`, not fixed, active, empty trail. -/
def new (x y mass : ℚ) : Particle :=
  { position := ⟨x, y⟩
    velocity := ⟨0, 0⟩
    acceleration := ⟨0, 0⟩
    force := ⟨0, 0⟩
    mass := mass
    radius := sqrtQ mass * 2
    restitution := 4/5
    friction := 49/50
    damping := 99/100
    color := "#ffffff"
    alpha := 1
    lifespan := none
    age := 0
    fixed := false
    active := true
    trail := []
    maxTrailLength := 10 }

instance : Inhabited Particle := ⟨new 0 0 1⟩

/-- `applyForce`: accumulate a force. -/
def applyForce (f : Vec2) (p : Particle) : Particle :=
  { p with force := p.force.add f }

/-- `this.age > this.lifespan`, with `Infinity` never exceeded. -/
def lifespanExceeded (age : ℚ) (lifespan : Option ℚ) : Bool :=
  match lifespan with
  | none => false
  | some l => decide (l < age)

/-- `updateTrail`: push the current position, evicting the oldest entry
past `maxTrailLength`. -/
def updateTrail (p : Particle) : Particle :=
  let t := p.trail ++ [p.position]
  { p with trail := if p.maxTrailLength < t.length then t.drop 1 else t }

/-- `PhysicsParticle.update` (source lines 159–189): return unchanged when
inactive or fixed; age; deactivate past the lifespan; otherwise integrate
`force/mass`, damp the velocity, move, record the trail, reset the force. -/
def update (deltaTime : ℚ) (p : Particle) : Particle :=
  if ¬p.active ∨ p.fixed then p
  else
    let p := { p with age := p.age + deltaTime }
    if lifespanExceeded p.age p.lifespan then { p with active := false }
    else
      let acceleration := p.force.divide p.mass
      let velocity := (p.velocity.add (acceleration.multiply deltaTime)).multiply
        (p.friction * p.damping)
      let position := p.position.add (velocity.multiply deltaTime)
      let p := { p with acceleration := acceleration, velocity := velocity,
                        position := position }
      let p := p.updateTrail
      { p with force := ⟨0, 0⟩ }

/-- `collidesWith`: strict overlap test `distance < r₁ + r₂`. -/
def collidesWith (p other : Particle) : Bool :=
  decide (p.position.distanceTo other.position < p.radius + other.radius)

/-- `resolveCollision` (source lines 216–255).  Returns the pair
`(this, other)` after the call.  Positional correction (half the overlap
each, fixed particles immovable) happens before the separating-velocity
early return; the impulse `j = −(1+e)·v_n / (1/m₁ + 1/m₂)` is applied
symmetrically to the non-fixed particles. -/
def resolveCollision (a b : Particle) : Particle × Particle :=
  let distance := a.position.distanceTo b.position
  let minDistance := a.radius + b.radius
  if minDistance ≤ distance then (a, b)
  else
    let normal := (b.position.sub a.position).normalize
    let overlap := minDistance - distance
    let separation := normal.multiply (overlap * (1/2))
    let aPos := if a.fixed then a.position else a.position.sub separation
    let bPos := if b.fixed then b.position else b.position.add separation
    let relativeVelocity := b.velocity.sub a.velocity
    let velocityAlongNormal := relativeVelocity.dot normal
    if 0 < velocityAlongNormal then
      ({ a with position := aPos }, { b with position := bPos })
    else
      let e := min a.restitution b.restitution
      let j := (-(1 + e) * velocityAlongNormal) / (1 / a.mass + 1 / b.mass)
      let impulse := normal.multiply j
      let aVel := if a.fixed then a.velocity else a.velocity.sub (impulse.divide a.mass)
      let bVel := if b.fixed then b.velocity else b.velocity.add (impulse.divide b.mass)
      ({ a with position := aPos, velocity := aVel },
       { b with position := bPos, velocity := bVel })

/-- `bounceOffBoundaries` (source lines 279–295): clamp the offending axis
to the wall and reflect that velocity component scaled by `−restitution`. -/
def bounceOffBoundaries (width height : ℚ) (p : Particle) : Particle :=
  let p :=
    if p.position.x - p.radius < 0 then
      { p with position := { p.position with x := p.radius },
               velocity := { p.velocity with x := p.velocity.x * (-p.restitution) } }
    else if width < p.position.x + p.radius then
      { p with position := { p.position with x := width - p.radius },
               velocity := { p.velocity with x := p.velocity.x * (-p.restitution) } }
    else p
  if p.position.y - p.radius < 0 then
    { p with position := { p.position with y := p.radius },
             velocity := { p.velocity with y := p.velocity.y * (-p.restitution) } }
  else if height < p.position.y + p.radius then
    { p with position := { p.position with y := height - p.radius },
             velocity := { p.velocity with y := p.velocity.y * (-p.restitution) } }
  else p

/-- `wrapAroundBoundaries` (source lines 302–314): teleport to the opposite
edge once fully outside. -/
def wrapAroundBoundaries (width height : ℚ) (p : Particle) : Particle :=
  let p :=
    if p.position.x < -p.radius then
      { p with position := { p.position with x := width + p.radius } }
    else if width + p.radius < p.position.x then
      { p with position := { p.position with x := -p.radius } }
    else p
  if p.position.y < -p.radius then
    { p with position := { p.position with y := height + p.radius } }
  else if height + p.radius < p.position.y then
    { p with position := { p.position with y := -p.radius } }
  else p

end Particle

/-! `ForceGenerator` (source lines 320–423). -/

namespace ForceGenerator

/-- `ForceGenerator.gravity`. -/
def gravity (strength : ℚ) : Vec2 := ⟨0, strength⟩

/-- `ForceGenerator.magneticField`: inverse-square pull toward the field
center; returns zero when the particle sits at the center. -/
def magneticField (fieldCenter particlePos : Vec2) (strength : ℚ) : Vec2 :=
  let direction := fieldCenter.sub particlePos
  let distance := direction.magnitude
  if distance = 0 then ⟨0, 0⟩
  else
    let force := strength / (distance * distance)
    (direction.normalize).multiply force

/-- `ForceGenerator.vortex`: tangential force, `1/distance` falloff; zero at
the center.  `direction.rotate(Math.PI/2)` is the exact quarter-turn
`(x, y) ↦ (−y, x)` (cos(π/2) = 0, sin(π/2) = 1 in exact arithmetic). -/
def vortex (center particlePos : Vec2) (strength : ℚ) : Vec2 :=
  let direction := particlePos.sub center
  let distance := direction.magnitude
  if distance = 0 then ⟨0, 0⟩
  else
    let force := strength / distance
    let rotated : Vec2 := ⟨-direction.y, direction.x⟩
    (rotated.normalize).multiply force

/-- `ForceGenerator.spring`: Hooke force toward the anchor, extension
measured from the rest length; no explicit zero-distance guard, the
`normalize` guard makes the zero-distance result the zero vector. -/
def spring (anchor particlePos : Vec2) (restLength stiffness : ℚ) : Vec2 :=
  let direction := anchor.sub particlePos
  let distance := direction.magnitude
  let extension := distance - restLength
  (direction.normalize).multiply (extension * stiffness)

/-- `ForceGenerator.electromagnetic`: Coulomb-style force between two
particles with charge proportional to mass; zero at zero distance. -/
def electromagnetic (particle1 particle2 : Particle) (k : ℚ) : Vec2 :=
  let direction := particle2.position.sub particle1.position
  let distance := direction.magnitude
  if distance = 0 then ⟨0, 0⟩
  else
    let force := k * particle1.mass * particle2.mass / (distance * distance)
    (direction.normalize).multiply force

end ForceGenerator

/-- `SpatialGrid` (source lines 668–719), generic in the stored payload so
the same embedding serves the engine (which stores particle references,
modelled as indices) and direct use (storing particles).  The JS `Map`
of string keys `"x,y"` to growing arrays is modelled by the append-ordered
entry list: per-key lookup in insertion order is preserved. -/
structure SpatialGrid (α : Type) where
  cellSize : ℚ
  entries : List ((ℤ × ℤ) × α)

/-- A position's cell: `(Math.floor(x / cellSize), Math.floor(y / cellSize))`. -/
def cellKey (cellSize : ℚ) (pos : Vec2) : ℤ × ℤ :=
  (⌊pos.x / cellSize⌋, ⌊pos.y / cellSize⌋)

namespace SpatialGrid

/-- A fresh grid (`clear` and the constructor). -/
def empty (α : Type) (cellSize : ℚ) : SpatialGrid α := ⟨cellSize, []⟩

/-- `SpatialGrid.insert`: file the payload under the cell of `pos`. -/
def insert (g : SpatialGrid α) (pos : Vec2) (a : α) : SpatialGrid α :=
  { g with entries := g.entries ++ [(cellKey g.cellSize pos, a)] }

/-- The occupants of one cell, in insertion order (a `Map` bucket). -/
def cellList (g : SpatialGrid α) (k : ℤ × ℤ) : List α :=
  (g.entries.filter fun e => decide (e.1 = k)).map Prod.snd

/-- The `(dx, dy)` scan order of `getNearby`: `dx` outer, `dy` inner. -/
def neighborOffsets : List (ℤ × ℤ) :=
  [(-1, -1), (-1, 0), (-1, 1), (0, -1), (0, 0), (0, 1), (1, -1), (1, 0), (1, 1)]

/-- `SpatialGrid.getNearby`: concatenate the occupants of the queried
position's cell and its 8 neighbors. -/
def getNearby (g : SpatialGrid α) (pos : Vec2) : List α :=
  (neighborOffsets.map fun d =>
    g.cellList (((cellKey g.cellSize pos).1 + d.1, (cellKey g.cellSize pos).2 + d.2))).flatten

end SpatialGrid

/-- Build a grid from a list of particles in order (`handleCollisions`
lines 542–545 with the particle itself as payload). -/
def buildGrid (cellSize : ℚ) (ps : List Particle) : SpatialGrid Particle :=
  ps.foldl (fun g p => g.insert p.position p) (SpatialGrid.empty Particle cellSize)

/-- The boundary-mode enum `'bounce' | 'wrap' | 'none'`. -/
inductive BoundaryMode where
  | bounce
  | wrap
  | none
deriving DecidableEq, Repr

/-- `PhysicsEngine` (source lines 428–663).  Force generators are callbacks
returning a force or a falsy value (`Option Vec2`). -/
structure Engine where
  particles : List Particle
  forces : List (Particle → Option Vec2)
  boundsWidth : ℚ
  boundsHeight : ℚ
  boundaryMode : BoundaryMode
  gravity : Vec2
  globalFriction : ℚ
  timeStep : ℚ
  /-- the `SpatialGrid(50)` cell size -/
  cellSize : ℚ

namespace Engine

/-- The `PhysicsEngine` constructor: 800×600 bounds, bounce mode, zero
gravity, `1/60` timestep, cell size 50. -/
def new : Engine :=
  { particles := []
    forces := []
    boundsWidth := 800
    boundsHeight := 600
    boundaryMode := .bounce
    gravity := ⟨0, 0⟩
    globalFriction := 1
    timeStep := 1/60
    cellSize := 50 }

/-- `getParticles`. -/
def getParticles (e : Engine) : List Particle := e.particles

/-- `applyGlobalForces` (lines 512–525): skip inactive or fixed particles;
apply `gravity * mass`, then each registered callback's force (falsy
results skipped). -/
def applyGlobalForces (e : Engine) : Engine :=
  { e with particles := e.particles.map fun particle =>
      if ¬particle.active ∨ particle.fixed then particle
      else
        let particle := particle.applyForce (e.gravity.multiply particle.mass)
        e.forces.foldl (fun particle f =>
          match f particle with
          | some force => particle.applyForce force
          | none => particle) particle }

/-- `updateParticles` (lines 531–535). -/
def updateParticles (deltaTime : ℚ) (e : Engine) : Engine :=
  { e with particles := e.particles.map (Particle.update deltaTime) }

/-- The grid-rebuild loop of `handleCollisions` (lines 542–545): insert
each particle in array order; the payload is the particle's array index,
modelling the object reference. -/
def insertFrom (i : ℕ) (ps : List Particle) (g : SpatialGrid ℕ) : SpatialGrid ℕ :=
  match ps with
  | [] => g
  | p :: rest => insertFrom (i + 1) rest (g.insert p.position i)

/-- `handleCollisions` (lines 540–556), instrumented: rebuild the grid
from current positions (indices as payload), then for each particle index
in order query the grid at the particle's current position and resolve
against every distinct, currently overlapping neighbor.  Also returns, in
order, every ordered index pair `(i, j)` for which
`particles[i].resolveCollision(particles[j])` was invoked. -/
def handleCollisionsAux (cellSize : ℚ) (ps : List Particle) :
    List Particle × List (ℕ × ℕ) :=
  let grid := insertFrom 0 ps (SpatialGrid.empty ℕ cellSize)
  (List.range ps.length).foldl
    (fun acc i =>
      let nearby := grid.getNearby (acc.1.getD i default).position
      nearby.foldl
        (fun acc j =>
          let a := acc.1.getD i default
          let b := acc.1.getD j default
          if j ≠ i ∧ a.collidesWith b then
            let r := Particle.resolveCollision a b
            (((acc.1.set i r.1).set j r.2), acc.2 ++ [(i, j)])
          else acc)
        acc)
    (ps, [])

/-- `handleCollisions`, result only. -/
def handleCollisions (cellSize : ℚ) (ps : List Particle) : List Particle :=
  (handleCollisionsAux cellSize ps).1

/-- `applyBoundaryConditions` (lines 561–575): per active particle, bounce,
wrap, or nothing. -/
def applyBoundaryConditions (e : Engine) : Engine :=
  { e with particles := e.particles.map fun particle =>
      if ¬particle.active then particle
      else
        match e.boundaryMode with
        | .bounce => particle.bounceOffBoundaries e.boundsWidth e.boundsHeight
        | .wrap => particle.wrapAroundBoundaries e.boundsWidth e.boundsHeight
        | .none => particle }

/-- `removeInactiveParticles` (lines 580–582). -/
def removeInactiveParticles (e : Engine) : Engine :=
  { e with particles := e.particles.filter fun particle => particle.active }

/-- `PhysicsEngine.update` (lines 492–507): global forces, integration,
collisions, boundary conditions, prune. -/
def update (deltaTime : ℚ) (e : Engine) : Engine :=
  let e := e.applyGlobalForces
  let e := e.updateParticles deltaTime
  let e := { e with particles := handleCollisions e.cellSize e.particles }
  let e := e.applyBoundaryConditions
  e.removeInactiveParticles

end Engine

/-!
## Concrete scenario states

Particles built the way library users build them: through the constructor,
then overriding public fields.
-/

/-- A fixed particle of radius 10 at the origin. -/
def fixedP : Particle := { Particle.new 0 0 1 with radius := 10, fixed := true }

/-- A non-fixed particle of radius 10 at `(5, 0)` moving toward `fixedP`,
overlapping it (distance 5 < combined radius 20). -/
def movingP : Particle :=
  { Particle.new 5 0 1 with radius := 10, velocity := ⟨-1, 0⟩ }

/-- The claim C2 scenario particle: at `(10, 300)`, velocity `(−50, 0)`,
radius 5, restitution 0.8. -/
def scenarioP : Particle :=
  { Particle.new 10 300 1 with velocity := ⟨-50, 0⟩, radius := 5, restitution := 4/5 }

/-- The claim C2 scenario engine: defaults (bounds 800×600, mode bounce, no
forces, zero gravity) with the single scenario particle. -/
def scenarioEngine : Engine := { Engine.new with particles := [scenarioP] }

/-- Two overlapping particles already separating: radius 1 each at distance
1, the second moving away at `(1, 0)`. -/
def sepA : Particle := { Particle.new 0 0 1 with radius := 1 }

/-- The separating partner of `sepA`. -/
def sepB : Particle := { Particle.new 1 0 1 with radius := 1, velocity := ⟨1, 0⟩ }

/-- A particle at rest at the origin with accumulated force `(0, g·m)`,
friction and damping 1 (claim C4). -/
def restParticle (m g : ℚ) : Particle :=
  { Particle.new 0 0 m with friction := 1, damping := 1, force := ⟨0, g * m⟩ }

/-- A radius-10 particle at the origin (claim C6 counterexample uses bounds
smaller than its diameter). -/
def wideP : Particle := { Particle.new 0 0 1 with radius := 10 }

/-- Grid scenario particle at `(10, 10)` (claim C7). -/
def gridA : Particle := Particle.new 10 10 1

/-- Grid scenario particle at `(12, 12)` (claim C7). -/
def gridB : Particle := Particle.new 12 12 1

/-- Grid scenario particle at `(500, 500)` (claim C7). -/
def gridC : Particle := Particle.new 500 500 1

/-- A particle with finite lifespan 1 (claim C9). -/
def lifespanP : Particle := { Particle.new 1 1 1 with lifespan := some 1 }

/-- Engine holding only `lifespanP` (claim C9). -/
def lifespanEngine : Engine := { Engine.new with particles := [lifespanP] }

/-- Colliding, approaching pair member for the momentum witness (claim
C10): radius 1 at the origin moving right. -/
def collA : Particle := { Particle.new 0 0 1 with radius := 1, velocity := ⟨1, 0⟩ }

/-- Partner of `collA`: radius 1 at `(1, 0)` moving left. -/
def collB : Particle := { Particle.new 1 0 1 with radius := 1, velocity := ⟨-1, 0⟩ }

/-!
## Helper lemmas
-/

lemma vec_sub_self (c : Vec2) : c.sub c = ⟨0, 0⟩ := by
  simp [Vec2.sub]

/-- `sqrtQ` is exact on squares of nonnegative rationals. -/
lemma sqrtQ_sq (a : ℚ) (h : 0 ≤ a) : sqrtQ (a * a) = a := by
  have hnum : (a * a).num = a.num * a.num := Rat.mul_self_num a
  have hden : (a * a).den = a.den * a.den := Rat.mul_self_den a
  have hnn : 0 ≤ a.num := Rat.num_nonneg.mpr h
  obtain ⟨n, hn⟩ := Int.eq_ofNat_of_zero_le hnn
  have htn : (a * a).num.toNat = n * n := by
    rw [hnum, hn]
    exact_mod_cast rfl
  unfold sqrtQ
  rw [htn, hden, Nat.sqrt_eq, Nat.sqrt_eq, if_pos]
  · rw [show ((n : ℚ) = (a.num : ℚ)) by rw [hn]; norm_cast]
    exact Rat.num_div_den a
  · exact ⟨mul_self_nonneg a, rfl, rfl⟩

lemma sqrtQ_zero : sqrtQ 0 = 0 := by
  have := sqrtQ_sq 0 le_rfl
  simpa using this

/-- Evaluate a magnitude whose radicand is a known perfect square. -/
lemma magnitude_eval (x y r : ℚ) (h : 0 ≤ r) (hsq : x * x + y * y = r * r) :
    Vec2.magnitude ⟨x, y⟩ = r := by
  simp only [Vec2.magnitude]
  rw [hsq, sqrtQ_sq r h]

lemma magnitude_zero_vec : Vec2.magnitude ⟨0, 0⟩ = 0 :=
  magnitude_eval 0 0 0 le_rfl (by norm_num)

lemma normalize_zero_vec : Vec2.normalize ⟨0, 0⟩ = ⟨0, 0⟩ := by
  simp [Vec2.normalize, magnitude_zero_vec]

lemma multiply_zero_vec (s : ℚ) : Vec2.multiply ⟨0, 0⟩ s = ⟨0, 0⟩ := by
  simp [Vec2.multiply]

/-!
## Claims
-/

/-- C5: all zero-distance degenerate cases yield the zero vector rather than
NaN: `normalize` of the zero vector is the zero vector, and `magneticField`,
`vortex`, `spring` and `electromagnetic` each return the zero vector (a
well-defined finite value) when the relevant distance is zero, i.e. when the
two points (or the two particles' positions) coincide. -/
theorem c5_zero_distance_guards :
    Vec2.normalize ⟨0, 0⟩ = ⟨0, 0⟩
    ∧ (∀ (c : Vec2) (s : ℚ), ForceGenerator.magneticField c c s = ⟨0, 0⟩)
    ∧ (∀ (c : Vec2) (s : ℚ), ForceGenerator.vortex c c s = ⟨0, 0⟩)
    ∧ (∀ (a : Vec2) (rl st : ℚ), ForceGenerator.spring a a rl st = ⟨0, 0⟩)
    ∧ (∀ (p q : Particle) (k : ℚ),
        ForceGenerator.electromagnetic p { q with position := p.position } k = ⟨0, 0⟩) := by
  refine ⟨normalize_zero_vec, ?_, ?_, ?_, ?_⟩
  · intro c s
    simp [ForceGenerator.magneticField, vec_sub_self, magnitude_zero_vec]
  · intro c s
    simp [ForceGenerator.vortex, vec_sub_self, magnitude_zero_vec]
  · intro a rl st
    simp [ForceGenerator.spring, vec_sub_self, magnitude_zero_vec,
      normalize_zero_vec, multiply_zero_vec]
  · intro p q k
    simp [ForceGenerator.electromagnetic, vec_sub_self, magnitude_zero_vec]

/-- C8 counterexample: constructing a particle with mass `−1` neither
rejects nor clamps — the stored mass is `−1 ≤ 0` and the particle is active,
so a particle with non-positive stored mass does enter the simulation. -/
theorem c8_nonpositive_mass_admitted :
    (Particle.new 0 0 (-1)).mass = -1
    ∧ (Particle.new 0 0 (-1)).mass ≤ 0
    ∧ (Particle.new 0 0 (-1)).active = true :=
  ⟨rfl, by norm_num [Particle.new], rfl⟩

/-- C8 amended: the constructor stores the given mass verbatim (no
rejection, no clamping to a positive epsilon) and marks the particle
active, so particles with mass ≤ 0 can enter the simulation. -/
theorem c8_mass_stored_verbatim (x y m : ℚ) :
    (Particle.new x y m).mass = m ∧ (Particle.new x y m).active = true :=
  ⟨rfl, rfl⟩

/-- C1 counterexample: with a fixed radius-10 particle at the origin
(index 0) and a non-fixed radius-10 particle at `(5, 0)` (index 1), one
`handleCollisions` pass invokes `resolveCollision` on the ordered pairs
`(0, 1)` and then `(1, 0)` — the same unordered pair twice.  The first
resolution moves the non-fixed particle by only half the overlap, so the
pair still overlaps when revisited from the other side. -/
theorem c1_unordered_pair_passed_twice :
    (Engine.handleCollisionsAux 50 [fixedP, movingP]).2 = [(0, 1), (1, 0)] := by
  norm_num [Engine.handleCollisionsAux, Engine.insertFrom, fixedP, movingP,
    Particle.new, Particle.collidesWith, Particle.resolveCollision,
    Vec2.add, Vec2.sub, Vec2.multiply, Vec2.divide, Vec2.dot, Vec2.distanceTo,
    Vec2.normalize, SpatialGrid.insert, SpatialGrid.empty, SpatialGrid.getNearby,
    SpatialGrid.cellList, SpatialGrid.neighborOffsets, cellKey,
    List.range_succ, List.getD, List.filter_cons, Prod.mk.injEq, Prod.ext_iff,
    Prod.fst_zero, Prod.snd_zero,
    magnitude_eval (-5) 0 5 (by norm_num) (by norm_num),
    magnitude_eval 5 0 5 (by norm_num) (by norm_num),
    magnitude_eval (25/2) 0 (25/2) (by norm_num) (by norm_num),
    magnitude_eval (-(25/2)) 0 (25/2) (by norm_num) (by norm_num)]

/-- C1 amended: `handleCollisions` does not deduplicate unordered pairs; a
pair that still overlaps after its first resolution (as with a fixed
particle, which leaves half the overlap in place) is passed to
`resolveCollision` a second time and receives a second impulse: the first
call alone leaves the moving particle's velocity at `−1/10`, while the full
pass (two calls) leaves it at `−1/100`. -/
theorem c1_second_impulse_applied :
    (Particle.resolveCollision fixedP movingP).2.velocity.x = -1/10
    ∧ ((Engine.handleCollisionsAux 50 [fixedP, movingP]).1.getD 1 default).velocity.x = -1/100
    ∧ (Engine.handleCollisionsAux 50 [fixedP, movingP]).2.length = 2 := by
  norm_num [Engine.handleCollisionsAux, Engine.insertFrom, fixedP, movingP,
    Particle.new, Particle.collidesWith, Particle.resolveCollision,
    Vec2.add, Vec2.sub, Vec2.multiply, Vec2.divide, Vec2.dot, Vec2.distanceTo,
    Vec2.normalize, SpatialGrid.insert, SpatialGrid.empty, SpatialGrid.getNearby,
    SpatialGrid.cellList, SpatialGrid.neighborOffsets, cellKey,
    List.range_succ, List.getD, List.filter_cons, Prod.mk.injEq, Prod.ext_iff,
    Prod.fst_zero, Prod.snd_zero,
    magnitude_eval (-5) 0 5 (by norm_num) (by norm_num),
    magnitude_eval 5 0 5 (by norm_num) (by norm_num),
    magnitude_eval (25/2) 0 (25/2) (by norm_num) (by norm_num),
    magnitude_eval (-(25/2)) 0 (25/2) (by norm_num) (by norm_num)]

/-- C2 counterexample: in the spec's scenario (bounds 800×600, bounce mode,
particle at `(10, 300)` with velocity `(−50, 0)`, radius 5, restitution
0.8), one `update(1/60)` moves the particle by less than one unit, so it
never reaches the left wall: `position.x ≠ 5` and `velocity.x` is still
negative (hence not ≈ 40). -/
theorem c2_no_bounce_in_one_step :
    ((Engine.update (1/60) scenarioEngine).particles.getD 0 default).position.x ≠ 5
    ∧ ((Engine.update (1/60) scenarioEngine).particles.getD 0 default).velocity.x < 0 := by
  norm_num [Engine.update, Engine.applyGlobalForces, Engine.updateParticles,
    Engine.handleCollisions, Engine.handleCollisionsAux, Engine.insertFrom,
    Engine.applyBoundaryConditions, Engine.removeInactiveParticles,
    scenarioEngine, scenarioP, Engine.new, Particle.new, Particle.update,
    Particle.applyForce, Particle.lifespanExceeded, Particle.updateTrail,
    Particle.bounceOffBoundaries, List.filter, List.getD,
    Vec2.add, Vec2.sub, Vec2.multiply, Vec2.divide,
    SpatialGrid.insert, SpatialGrid.empty, SpatialGrid.getNearby, SpatialGrid.cellList,
    SpatialGrid.neighborOffsets, cellKey, List.range_succ]

/-- C2 amended: in that scenario one `update(1/60)` yields
`position.x = 18383/2000 = 9.1915` and `velocity.x = −4851/100 = −48.51`
(the default friction 0.98 and damping 0.99 scale the velocity, then the
position advances by `velocity·dt`; no boundary bounce occurs). -/
theorem c2_one_step_exact_values :
    ((Engine.update (1/60) scenarioEngine).particles.getD 0 default).position.x = 18383/2000
    ∧ ((Engine.update (1/60) scenarioEngine).particles.getD 0 default).velocity.x = -4851/100 := by
  norm_num [Engine.update, Engine.applyGlobalForces, Engine.updateParticles,
    Engine.handleCollisions, Engine.handleCollisionsAux, Engine.insertFrom,
    Engine.applyBoundaryConditions, Engine.removeInactiveParticles,
    scenarioEngine, scenarioP, Engine.new, Particle.new, Particle.update,
    Particle.applyForce, Particle.lifespanExceeded, Particle.updateTrail,
    Particle.bounceOffBoundaries, List.filter, List.getD,
    Vec2.add, Vec2.sub, Vec2.multiply, Vec2.divide,
    SpatialGrid.insert, SpatialGrid.empty, SpatialGrid.getNearby, SpatialGrid.cellList,
    SpatialGrid.neighborOffsets, cellKey, List.range_succ]

/-- C3 counterexample: an overlapping pair whose relative velocity along
the collision normal is positive (already separating) still has both
positions changed by `resolveCollision` — the positional correction runs
before the separating-velocity early return. -/
theorem c3_position_changed_though_separating :
    0 < (sepB.velocity.sub sepA.velocity).dot ((sepB.position.sub sepA.position).normalize)
    ∧ (Particle.resolveCollision sepA sepB).1.position ≠ sepA.position
    ∧ (Particle.resolveCollision sepA sepB).2.position ≠ sepB.position := by
  norm_num [Particle.resolveCollision, sepA, sepB, Particle.new, Vec2.sub, Vec2.dot,
    Vec2.normalize, Vec2.divide, Vec2.add, Vec2.multiply, Vec2.distanceTo,
    magnitude_eval 1 0 1 (by norm_num) (by norm_num),
    magnitude_eval (-1) 0 1 (by norm_num) (by norm_num), Vec2.mk.injEq]

/-- C3 amended: when the relative velocity along the collision normal is
positive, `resolveCollision` leaves both particles' velocities completely
unchanged (the impulse step is skipped); it is not skipped entirely — the
positional correction still applies to overlapping particles. -/
theorem c3_separating_velocities_unchanged (a b : Particle)
    (h : 0 < (b.velocity.sub a.velocity).dot ((b.position.sub a.position).normalize)) :
    (Particle.resolveCollision a b).1.velocity = a.velocity
    ∧ (Particle.resolveCollision a b).2.velocity = b.velocity := by
  simp only [Particle.resolveCollision]
  split_ifs <;> exact ⟨rfl, rfl⟩

/-- Witness for the amended C3 at the concrete separating pair. -/
theorem c3_witness :
    (0 < (sepB.velocity.sub sepA.velocity).dot ((sepB.position.sub sepA.position).normalize))
    ∧ ((Particle.resolveCollision sepA sepB).1.velocity = sepA.velocity
       ∧ (Particle.resolveCollision sepA sepB).2.velocity = sepB.velocity) :=
  have hsep : 0 < (sepB.velocity.sub sepA.velocity).dot
      ((sepB.position.sub sepA.position).normalize) := by
    norm_num [sepA, sepB, Particle.new, Vec2.sub, Vec2.dot, Vec2.normalize, Vec2.divide,
      magnitude_eval 1 0 1 (by norm_num) (by norm_num)]
  ⟨hsep, c3_separating_velocities_unchanged sepA sepB hsep⟩

/-- C9: after every `update` the particle collection holds only active
particles (the final prune filters on `active`); in particular the
lifespan-1 particle, aged past its lifespan by `update 2`, is deactivated
during that update and excluded from `getParticles` by the same update's
prune pass. -/
theorem c9_active_only_after_update :
    (∀ (dt : ℚ) (e : Engine),
       ((Engine.update dt e).getParticles.all fun p => p.active) = true)
    ∧ (Engine.update 2 lifespanEngine).getParticles = [] := by
  constructor
  · intro dt e
    simp only [Engine.update, Engine.removeInactiveParticles, Engine.getParticles,
      List.all_eq_true]
    intro p hp
    exact (List.mem_filter.mp hp).2
  · norm_num [Engine.update, Engine.applyGlobalForces, Engine.updateParticles,
      Engine.handleCollisions, Engine.handleCollisionsAux, Engine.insertFrom,
      Engine.applyBoundaryConditions, Engine.removeInactiveParticles, Engine.getParticles,
      lifespanEngine, lifespanP, Engine.new, Particle.new, Particle.update,
      Particle.applyForce, Particle.lifespanExceeded, Particle.updateTrail,
      List.filter, Vec2.add, Vec2.sub, Vec2.multiply, Vec2.divide,
      SpatialGrid.insert, SpatialGrid.empty, SpatialGrid.getNearby, SpatialGrid.cellList,
      SpatialGrid.neighborOffsets, cellKey, List.range_succ]

/-- C4: a particle at rest with accumulated force `(0, g·m)`, friction and
damping 1, has velocity `(0, g·dt)` and position `(0, g·dt²)` after a single
`update(dt)` (acceleration = force/mass, velocity += a·dt, position +=
v·dt). -/
theorem c4_rest_particle_one_step (m g dt : ℚ) (hm : 0 < m) :
    (Particle.update dt (restParticle m g)).velocity = ⟨0, g * dt⟩
    ∧ (Particle.update dt (restParticle m g)).position = ⟨0, g * dt * dt⟩ := by
  have hm' : m ≠ 0 := ne_of_gt hm
  simp [Particle.update, restParticle, Particle.new, Particle.lifespanExceeded,
    Particle.updateTrail, Vec2.divide, Vec2.add, Vec2.multiply, Vec2.mk.injEq,
    mul_div_assoc, mul_div_cancel_right₀, hm']

/-- Witness for C4 at `m = 1`, `g = 10`, `dt = 1/2`. -/
theorem c4_witness :
    (0:ℚ) < 1
    ∧ ((Particle.update (1/2) (restParticle 1 10)).velocity = ⟨0, 10 * (1/2)⟩
       ∧ (Particle.update (1/2) (restParticle 1 10)).position = ⟨0, 10 * (1/2) * (1/2)⟩) :=
  ⟨by norm_num, c4_rest_particle_one_step 1 10 (1/2) (by norm_num)⟩

/-- C6 counterexample: with bounds 5×5 smaller than the particle's diameter
(radius 10), `bounceOffBoundaries` clamps the center to `(10, 10)`, outside
`[radius, width − radius] × [radius, height − radius] = [10, −5] × [10, −5]`
(an empty box), so the claim fails for arbitrary bounds. -/
theorem c6_small_bounds_violation :
    ¬(wideP.radius ≤ (Particle.bounceOffBoundaries 5 5 wideP).position.x
      ∧ (Particle.bounceOffBoundaries 5 5 wideP).position.x ≤ 5 - wideP.radius
      ∧ wideP.radius ≤ (Particle.bounceOffBoundaries 5 5 wideP).position.y
      ∧ (Particle.bounceOffBoundaries 5 5 wideP).position.y ≤ 5 - wideP.radius) := by
  norm_num [Particle.bounceOffBoundaries, wideP, Particle.new]

/-- C6 amended: whenever the boundary rectangle is at least one diameter
wide and high (`2·radius ≤ width` and `2·radius ≤ height`),
`bounceOffBoundaries` leaves the center inside
`[radius, width − radius] × [radius, height − radius]`. -/
theorem c6_bounce_confines_center (p : Particle) (w h : ℚ)
    (hw : 2 * p.radius ≤ w) (hh : 2 * p.radius ≤ h) :
    p.radius ≤ (Particle.bounceOffBoundaries w h p).position.x
    ∧ (Particle.bounceOffBoundaries w h p).position.x ≤ w - p.radius
    ∧ p.radius ≤ (Particle.bounceOffBoundaries w h p).position.y
    ∧ (Particle.bounceOffBoundaries w h p).position.y ≤ h - p.radius := by
  simp only [Particle.bounceOffBoundaries]
  split_ifs <;> refine ⟨?_, ?_, ?_, ?_⟩ <;> simp_all <;> linarith

/-- Witness for the amended C6: the radius-10 particle inside 100×100
bounds. -/
theorem c6_witness :
    2 * wideP.radius ≤ (100:ℚ)
    ∧ (wideP.radius ≤ (Particle.bounceOffBoundaries 100 100 wideP).position.x
       ∧ (Particle.bounceOffBoundaries 100 100 wideP).position.x ≤ 100 - wideP.radius
       ∧ wideP.radius ≤ (Particle.bounceOffBoundaries 100 100 wideP).position.y
       ∧ (Particle.bounceOffBoundaries 100 100 wideP).position.y ≤ 100 - wideP.radius) :=
  have hb : 2 * wideP.radius ≤ (100:ℚ) := by norm_num [wideP, Particle.new]
  ⟨hb, c6_bounce_confines_center wideP 100 100 hb hb⟩

/-- C10: `resolveCollision` conserves total linear momentum for non-fixed
particles with positive masses: the impulse is applied equally and
oppositely, and the positional correction never touches velocities. -/
theorem c10_momentum_conserved (a b : Particle)
    (ha : a.fixed = false) (hb : b.fixed = false)
    (hma : 0 < a.mass) (hmb : 0 < b.mass) :
    ((Particle.resolveCollision a b).1.velocity.multiply a.mass).add
      ((Particle.resolveCollision a b).2.velocity.multiply b.mass)
    = (a.velocity.multiply a.mass).add (b.velocity.multiply b.mass) := by
  have ha' : a.mass ≠ 0 := ne_of_gt hma
  have hb' : b.mass ≠ 0 := ne_of_gt hmb
  simp only [Particle.resolveCollision, ha, hb, Bool.false_eq_true, if_false]
  split_ifs
  · rfl
  · rfl
  · simp only [Vec2.add, Vec2.sub, Vec2.multiply, Vec2.divide, Vec2.mk.injEq]
    constructor <;> field_simp <;> ring

/-- Witness for C10 at a concrete approaching overlapping pair (masses 1,
impulse branch taken). -/
theorem c10_witness :
    collA.fixed = false ∧ collB.fixed = false ∧ 0 < collA.mass ∧ 0 < collB.mass
    ∧ ((Particle.resolveCollision collA collB).1.velocity.multiply collA.mass).add
        ((Particle.resolveCollision collA collB).2.velocity.multiply collB.mass)
      = (collA.velocity.multiply collA.mass).add (collB.velocity.multiply collB.mass) :=
  ⟨rfl, rfl, by norm_num [collA, Particle.new], by norm_num [collB, Particle.new],
   c10_momentum_conserved collA collB rfl rfl
     (by norm_num [collA, Particle.new]) (by norm_num [collB, Particle.new])⟩

/-- Building a grid by folding `insert` over a particle list yields the
entry list of per-particle `(cell, particle)` pairs in insertion order. -/
lemma buildGrid_eq (size : ℚ) (ps : List Particle) :
    buildGrid size ps
      = ⟨size, ps.map fun p => (cellKey size p.position, p)⟩ := by
  have key : ∀ (l : List Particle) (ent : List ((ℤ × ℤ) × Particle)),
      (l.foldl (fun g p => g.insert p.position p)
          (⟨size, ent⟩ : SpatialGrid Particle))
        = ⟨size, ent ++ l.map fun p => (cellKey size p.position, p)⟩ := by
    intro l
    induction l with
    | nil => intro ent; simp
    | cons p rest ih =>
      intro ent
      rw [List.foldl_cons]
      have hstep : ({ cellSize := size, entries := ent } : SpatialGrid Particle).insert
          p.position p
          = { cellSize := size, entries := ent ++ [(cellKey size p.position, p)] } := rfl
      rw [hstep, ih]
      simp
  simpa [buildGrid, SpatialGrid.empty] using key ps []

/-- Cell lookup returns exactly the payloads filed under that key. -/
lemma mem_cellList {α : Type} (g : SpatialGrid α) (k : ℤ × ℤ) (a : α) :
    a ∈ g.cellList k ↔ (k, a) ∈ g.entries := by
  simp only [SpatialGrid.cellList, List.mem_map, List.mem_filter, decide_eq_true_eq]
  constructor
  · rintro ⟨⟨k1, a1⟩, ⟨hm, rfl⟩, rfl⟩
    exact hm
  · intro hm
    exact ⟨(k, a), ⟨hm, rfl⟩, rfl⟩

/-- A cell is one of the 9 scanned offsets of `c` exactly when it is within
Chebyshev distance 1 of `c`. -/
lemma mem_neighborOffsets_iff (c k : ℤ × ℤ) :
    (∃ d ∈ SpatialGrid.neighborOffsets, k = (c.1 + d.1, c.2 + d.2))
      ↔ (k.1 - c.1).natAbs ≤ 1 ∧ (k.2 - c.2).natAbs ≤ 1 := by
  simp [SpatialGrid.neighborOffsets, Prod.ext_iff]
  constructor
  · rintro ⟨a, b, hab, h1, h2⟩
    omega
  · rintro ⟨h1, h2⟩
    have ha : k.1 - c.1 = -1 ∨ k.1 - c.1 = 0 ∨ k.1 - c.1 = 1 := by omega
    have hb : k.2 - c.2 = -1 ∨ k.2 - c.2 = 0 ∨ k.2 - c.2 = 1 := by omega
    refine ⟨k.1 - c.1, k.2 - c.2, ?_, by ring, by ring⟩
    rcases ha with ha | ha | ha <;> rcases hb with hb | hb | hb <;> simp [ha, hb]

/-- Membership characterization of `getNearby` over a freshly built grid. -/
lemma mem_getNearby_buildGrid (size : ℚ) (ps : List Particle) (pos : Vec2)
    (q : Particle) :
    q ∈ (buildGrid size ps).getNearby pos
      ↔ q ∈ ps
        ∧ ((cellKey size q.position).1 - (cellKey size pos).1).natAbs ≤ 1
        ∧ ((cellKey size q.position).2 - (cellKey size pos).2).natAbs ≤ 1 := by
  rw [buildGrid_eq]
  simp only [SpatialGrid.getNearby, List.mem_flatten, List.mem_map]
  constructor
  · rintro ⟨l, ⟨d, hd, rfl⟩, hq⟩
    rw [mem_cellList] at hq
    simp only [List.mem_map, Prod.mk.injEq] at hq
    obtain ⟨p, hp, hkey, rfl⟩ := hq
    exact ⟨hp, (mem_neighborOffsets_iff _ _).mp ⟨d, hd, hkey⟩⟩
  · rintro ⟨hq, h1, h2⟩
    obtain ⟨d, hd, hk⟩ := (mem_neighborOffsets_iff _ _).mpr ⟨h1, h2⟩
    refine ⟨_, ⟨d, hd, rfl⟩, ?_⟩
    rw [mem_cellList, ← hk]
    simp only [List.mem_map]
    exact ⟨q, hq, rfl⟩

/-- C7: `getNearby(p)` returns exactly the particles inserted into `p`'s
cell and its 8 neighbors (cells within Chebyshev distance 1); with cell
size 50, particles at `(10, 10)` and `(12, 12)` each appear in the other's
`getNearby`, and a particle at `(500, 500)` appears in neither's. -/
theorem c7_getNearby_exactly_3x3 :
    (∀ (size : ℚ) (ps : List Particle) (pos : Vec2) (q : Particle),
       q ∈ (buildGrid size ps).getNearby pos
         ↔ q ∈ ps
           ∧ ((cellKey size q.position).1 - (cellKey size pos).1).natAbs ≤ 1
           ∧ ((cellKey size q.position).2 - (cellKey size pos).2).natAbs ≤ 1)
    ∧ gridB ∈ (buildGrid 50 [gridA, gridB, gridC]).getNearby gridA.position
    ∧ gridA ∈ (buildGrid 50 [gridA, gridB, gridC]).getNearby gridB.position
    ∧ gridC ∉ (buildGrid 50 [gridA, gridB, gridC]).getNearby gridA.position
    ∧ gridC ∉ (buildGrid 50 [gridA, gridB, gridC]).getNearby gridB.position := by
  refine ⟨mem_getNearby_buildGrid, ?_, ?_, ?_, ?_⟩
  · rw [mem_getNearby_buildGrid]
    refine ⟨by simp, ?_, ?_⟩ <;>
      norm_num [cellKey, gridA, gridB, Particle.new]
  · rw [mem_getNearby_buildGrid]
    refine ⟨by simp, ?_, ?_⟩ <;>
      norm_num [cellKey, gridA, gridB, Particle.new]
  · rw [mem_getNearby_buildGrid]
    rintro ⟨-, h1, -⟩
    norm_num [cellKey, gridA, gridC, Particle.new] at h1
  · rw [mem_getNearby_buildGrid]
    rintro ⟨-, h1, -⟩
    norm_num [cellKey, gridB, gridC, Particle.new] at h1
